import Mathlib

/-!
Verification of the reconciliation core of the terraform-provider-hsdp
repository, shallowly embedded from the Go sources:

  * `internal/services/metrics/resource_metrics_autoscaler.go`
    (outcome classifier `checkForIntermittentErrors`, retry executor
    `updateWithRetry` built on `backoff.Retry`/`backoff.WithMaxRetries`,
    CRUD callbacks of the autoscaler resource);
  * `internal/services/cdr/org/stu3.go`
    (CDR FHIR organization Create/Read/Update/Delete, purge polling);
  * `internal/services/iam/resource_iam_organization.go`
    (IAM organization Read/Update/Delete).

Remote clients are modelled as records of pure functions (one result per
call, retried calls indexed by the attempt number); every embedded CRUD
operation returns the new resource state, the list of error diagnostics
(empty = success) and the trace of remote calls it issued.  Wall-clock
facets (backoff sleeps, poll cadence, timeouts) are abstracted: a poll
timeout becomes a fuel bound, while the configured delay values are kept
as data so they can be checked.
-/

/-- The three ways a Go `error` value returned to `backoff.Retry` can
behave: `nil` (stop with success), a plain error (retry-eligible), or a
`backoff.PermanentError` (stop immediately, never retried). -/
inductive RetryClass where
  | success
  | retryable (msg : String)
  | permanent (msg : String)
  deriving DecidableEq

/-- Whether a classified outcome is a `backoff.PermanentError`. -/
def RetryClass.isPermanent : RetryClass → Bool
  | RetryClass.permanent _ => true
  | _ => false

/-- Returning a possibly-nil Go error unchanged: `nil` is success, any
other error is retry-eligible for `backoff.Retry`. -/
def plainErr : Option String → RetryClass
  | none => RetryClass.success
  | some e => RetryClass.retryable e

/-- `backoff.Permanent(err)` from cenkalti/backoff/v4: `nil` stays `nil`
(success), a non-nil error is wrapped so the retry loop stops at once. -/
def permanentErr : Option String → RetryClass
  | none => RetryClass.success
  | some e => RetryClass.permanent e

/-- Whether `p` is a prefix of `s` (on character lists). -/
def charsPrefix : List Char → List Char → Bool
  | [], _ => true
  | _ :: _, [] => false
  | p :: ps, c :: cs => p == c && charsPrefix ps cs

/-- Whether `pat` occurs inside `s` (on character lists); the empty
pattern occurs in every string, as in Go. -/
def charsContains : List Char → List Char → Bool
  | [], pat => pat.isEmpty
  | c :: cs, pat => charsPrefix pat (c :: cs) || charsContains cs pat

/-- Go's `strings.Contains s pat`. -/
def strContains (s pat : String) : Bool :=
  charsContains s.data pat.data

/-- Modelled from the spec: `config.ErrIntermittent` (package
`internal/config`, not under src/) is the sentinel error returned for the
known transient signature; it is a plain (non-Permanent) error, so
`backoff.Retry` retries it. -/
def errIntermittent : String := "ErrIntermittent"

/-- A `console.Response` as `checkForIntermittentErrors` reads it: the
HTTP status code and `resp.Error.Message`. -/
structure ConsoleResponse where
  statusCode : Nat
  errorMessage : String
  deriving DecidableEq

/-- The message `fmt.Errorf("console: %s %w", resp.Error.Message, err)`
builds in the status-500 branch (the wrapped error is never nil). -/
def consoleErrorMessage (r : ConsoleResponse) (err : Option String) : String :=
  "console: " ++ r.errorMessage ++ " " ++
    (match err with
     | some e => e
     | none => "<nil>")

/-- The outcome classifier of `resource_metrics_autoscaler.go`
(`checkForIntermittentErrors`): nil response or status above 500 returns
the call's error unchanged; status exactly 500 returns a Permanent
wrapped error; status 400 whose message contains "invalid character"
returns the retryable `config.ErrIntermittent`; anything else wraps the
error as Permanent. -/
def checkForIntermittentErrors (resp : Option ConsoleResponse) (err : Option String) :
    RetryClass :=
  match resp with
  | none => plainErr err
  | some r =>
    if 500 < r.statusCode then plainErr err
    else if r.statusCode = 500 then RetryClass.permanent (consoleErrorMessage r err)
    else if r.statusCode = 400 && strContains r.errorMessage ("invalid character") then
      RetryClass.retryable errIntermittent
    else permanentErr err

/-- The loop of `backoff.Retry` under `backoff.WithMaxRetries(b, max)`
(cenkalti/backoff/v4): run the attempt with index `i`; success or a
Permanent error stops at once; a plain error retries while retry budget
remains, otherwise the last error is returned.  Result: (total number of
attempts made, final error; `none` = success).  The delegate schedule's
`MaxElapsedTime` cutoff is wall-clock and is not modelled. -/
def backoffRetryAux (op : Nat → RetryClass) : Nat → Nat → Nat × Option String
  | i, 0 =>
    (match op i with
     | RetryClass.success => (i + 1, none)
     | RetryClass.permanent e => (i + 1, some e)
     | RetryClass.retryable e => (i + 1, some e))
  | i, f + 1 =>
    (match op i with
     | RetryClass.success => (i + 1, none)
     | RetryClass.permanent e => (i + 1, some e)
     | RetryClass.retryable _ => backoffRetryAux op (i + 1) f)

/-- `backoff.Retry(operation, backoff.WithMaxRetries(backoff.NewExponentialBackOff(), maxRetries))`:
the initial attempt plus at most `maxRetries` retries. -/
def backoffRetry (op : Nat → RetryClass) (maxRetries : Nat) : Nat × Option String :=
  backoffRetryAux op 0 maxRetries

/-! ## Metrics autoscaler resource (`resource_metrics_autoscaler.go`) -/

/-- A `console.Threshold` as built by `resourceMetricsAutoscalerCreate`. -/
structure ConsoleThreshold where
  name : String
  minV : Float
  maxV : Float
  enabled : Bool

/-- A `console.Application` as built by `resourceMetricsAutoscalerCreate`. -/
structure ConsoleApplication where
  name : String
  enabled : Bool
  minInstances : Int
  maxInstances : Int
  thresholds : List ConsoleThreshold

/-- One result of `client.Metrics.UpdateApplicationAutoscaler`:
(application, response, error). -/
structure UpdateAppResult where
  app : Option ConsoleApplication
  resp : Option ConsoleResponse
  err : Option String

/-- One configured threshold block of the resource data (`min`, `max`,
`enabled` of a one-element set). -/
structure ThresholdBlock where
  enabled : Bool
  minV : Float
  maxV : Float

/-- The autoscaler resource data: terraform ID plus the declared fields.
A threshold block is `none` when `d.GetOk` reports it absent. -/
structure MetricsResourceData where
  id : String
  metricsInstanceID : String
  appName : String
  maxInstances : Int
  minInstances : Int
  enabled : Bool
  thresholdCpu : Option ThresholdBlock
  thresholdMemory : Option ThresholdBlock
  thresholdHttpRate : Option ThresholdBlock
  thresholdHttpLatency : Option ThresholdBlock

/-- The environment of the autoscaler callbacks: the outcome of
`c.ConsoleClient()` and the remote update call, indexed by the retry
attempt number. -/
structure MetricsEnv where
  consoleClientErr : Option String
  updateApplicationAutoscaler : Nat → ConsoleApplication → UpdateAppResult

/-- The threshold blocks with their `console` names, in the fixed order
cpu, memory, http-rate, http-latency.  (The Go code ranges over the map
`thresholdMapping`, whose iteration order is unspecified; only the order
of `app.Thresholds` depends on it, and no claim does.) -/
def thresholdEntries (d : MetricsResourceData) : List (String × Option ThresholdBlock) :=
  [("cpu", d.thresholdCpu), ("memory", d.thresholdMemory),
   ("http-rate", d.thresholdHttpRate), ("http-latency", d.thresholdHttpLatency)]

/-- The `console.Application` that `resourceMetricsAutoscalerCreate`
assembles from the resource data before calling `updateWithRetry`. -/
def buildAutoscalerApp (d : MetricsResourceData) : ConsoleApplication :=
  { name := d.appName
    enabled := d.enabled
    minInstances := d.minInstances
    maxInstances := d.maxInstances
    thresholds :=
      (thresholdEntries d).foldr
        (fun kb acc =>
          match kb.2 with
          | some t => { name := kb.1, minV := t.minV, maxV := t.maxV, enabled := t.enabled } :: acc
          | none => acc)
        [] }

/-- `updateWithRetry`: drive `UpdateApplicationAutoscaler` through
`backoff.Retry` with `WithMaxRetries(..., 30)`, classifying each attempt
with `checkForIntermittentErrors`; the closure leaves `created` holding
the application of the last attempt made.  Result: (created application,
final error, number of attempts made). -/
def updateWithRetry (env : MetricsEnv) (app : ConsoleApplication) :
    Option ConsoleApplication × Option String × Nat :=
  match backoffRetry
      (fun i => checkForIntermittentErrors
        (env.updateApplicationAutoscaler i app).resp
        (env.updateApplicationAutoscaler i app).err) 30 with
  | (attempts, e) => ((env.updateApplicationAutoscaler (attempts - 1) app).app, e, attempts)

/-- `resourceMetricsAutoscalerCreate`: build the application from the
declared fields, submit it through `updateWithRetry`, then either report
the error, report a nil created application, or set the ID to
`instanceID + created.Name`.  The third component counts the remote
update attempts issued. -/
def resourceMetricsAutoscalerCreate (env : MetricsEnv) (d : MetricsResourceData) :
    MetricsResourceData × List String × Nat :=
  match env.consoleClientErr with
  | some e => (d, [e], 0)
  | none =>
    match updateWithRetry env (buildAutoscalerApp d) with
    | (_, some e, attempts) => (d, [e], attempts)
    | (none, none, attempts) => (d, ["error creating/updating autoscaler"], attempts)
    | (some created, none, attempts) =>
      ({ d with id := d.metricsInstanceID ++ created.name }, [], attempts)

/-- `resourceMetricsAutoscalerUpdate` is, in the source, the single line
`return resourceMetricsAutoscalerCreate(ctx, d, m)`. -/
def resourceMetricsAutoscalerUpdate (env : MetricsEnv) (d : MetricsResourceData) :
    MetricsResourceData × List String × Nat :=
  resourceMetricsAutoscalerCreate env d

/-! ## CDR FHIR organization (`cdr/org/stu3.go`) -/

/-- The pieces of an STU3 `Organization` resource that the embedded code
reads or writes: `Id.Value`, `Name.Value` and the optional
`PartOf` organization reference. -/
structure Stu3Org where
  id : String
  name : String
  partOf : Option String
  deriving DecidableEq

/-- A CDR HTTP response as read by the embedded code: status code and
the `Location` header. -/
structure FhirResponse where
  statusCode : Nat
  location : String
  deriving DecidableEq

/-- One result of `client.TenantSTU3.GetOrganizationByID`. -/
structure GetOrgResult where
  org : Option Stu3Org
  resp : Option FhirResponse
  err : Option String

/-- One onboarding attempt inside the `backoff.Retry` closure of
`stu3Create`: the organization the call returned and the classification
of `tools.CheckForIAMPermissionErrors(client, resp.Response, err)` (that
helper lives in `internal/tools`, outside src/, so its verdict is
supplied by the environment). -/
structure OnboardAttempt where
  org : Stu3Org
  check : RetryClass

/-- One result of `client.OperationsSTU3.Delete`. -/
structure DeleteResult where
  deleted : Bool
  resp : Option FhirResponse
  err : Option String

/-- One result of the `$purge` POST of `stu3Delete`. -/
structure PurgeResult where
  resp : Option FhirResponse
  err : Option String

/-- One result of the purge status check
(`client.OperationsSTU3.Get` against the follow-up URL): the contained
`Parameters` resource as (name, string value) pairs, the response and
the error. -/
structure StatusResult where
  params : List (String × String)
  resp : FhirResponse
  err : Option String

/-- What a `resource.StateRefreshFunc` yields: the state label and the
error (the opaque result value is not modelled). -/
structure RefreshResult where
  state : String
  err : Option String
  deriving DecidableEq

/-- One remote call of the CDR organization reconciler, for call traces. -/
inductive CdrCall where
  | getOrg (orgID : String)
  | onboard
  | patch (p : String)
  | deleteCall (p : String)
  | purgePost
  | statusGet (url : String)
  deriving DecidableEq

/-- The CDR client: each remote operation as a pure function; onboarding
and purge status checks are indexed by the attempt number. -/
structure CdrClient where
  getOrganizationByID : String → GetOrgResult
  onboardAttempt : Nat → OnboardAttempt
  patchOp : String → String → Option String
  deleteOp : String → DeleteResult
  purgePost : PurgeResult
  statusGet : String → Nat → StatusResult

/-- The environment of the CDR callbacks: the client plus the outcomes
of the external helpers `stu3.NewOrganization`,
`c.STU3MA.MarshalResource` (first marshal of `stu3Update`) and
`jsonpatch.DiffBytes`. -/
structure CdrEnv where
  newOrgErr : Option String
  marshalErr : Option String
  diffErr : Option String
  client : CdrClient

/-- The CDR organization resource data: terraform ID, declared fields,
and the `d.HasChange` verdicts terraform supplies to Update. -/
structure CdrResourceData where
  id : String
  org_id : String
  name : String
  part_of : String
  purge_delete : Bool
  nameChanged : Bool
  partOfChanged : Bool
  deriving DecidableEq

/-- A stand-in for `c.STU3MA.MarshalResource`: a deterministic
serialization of the organization (the patch payload is opaque to every
claim, only its derivation from the before/after serializations is
kept). -/
def marshalOrg (o : Stu3Org) : String :=
  o.id ++ "|" ++ o.name ++ "|" ++
    (match o.partOf with
     | some p => p
     | none => "-")

/-- A stand-in for `jsonpatch.DiffBytes` on serialized documents: equal
inputs give the empty patch document, otherwise a document recording
both serializations.  (Only `stu3Update` consumes it, as an opaque
payload of the PATCH call.) -/
def diffBytes (before after : String) : String :=
  if before = after then "[]" else before ++ "=>" ++ after

/-- Go's `url.Parse` as the purge refresher uses it: it rejects URLs
holding ASCII control characters and otherwise yields the URL (other,
rare failure modes of `url.Parse` are not modelled). -/
def urlParse (s : String) : Option String :=
  if s.data.all (fun c => 32 ≤ c.toNat) then some s else none

/-- First `Parameters` entry named `key`, as the loop of
`stu3PurgeStateRefreshFunc` finds it. -/
def lookupParam (key : String) : List (String × String) → Option String
  | [] => none
  | kv :: rest => if kv.1 = key then some kv.2 else lookupParam key rest

/-- `stu3PurgeStateRefreshFunc`: parse the follow-up URL (failure gives
a constant FAILED refresher); then per check: an error gives FAILED with
that error; status 202 gives PURGING; otherwise the value of the
`status` parameter of the body, and FAILED with an error when that
parameter is missing. -/
def stu3PurgeRefresh (client : CdrClient) (purgeStatusURL _id : String) (n : Nat) :
    RefreshResult :=
  match urlParse purgeStatusURL with
  | none => { state := "FAILED", err := some ("parse error: " ++ purgeStatusURL) }
  | some u =>
    match (client.statusGet u n).err with
    | some e => { state := "FAILED", err := some e }
    | none =>
      if (client.statusGet u n).resp.statusCode = 202 then
        { state := "PURGING", err := none }
      else
        match lookupParam ("status") (client.statusGet u n).params with
        | some v => { state := v, err := none }
        | none =>
          { state := "FAILED",
            err := some ("missing status parameter for GET " ++ purgeStatusURL) }

/-- The configuration fields of a `resource.StateChangeConf` that the
purge wait builds: pending/target label sets, initial delay and minimum
poll interval (both in seconds; the wall-clock timeout is modelled as
fuel). -/
structure StateChangeConf where
  pending : List String
  target : List String
  delaySeconds : Nat
  minTimeoutSeconds : Nat
  deriving DecidableEq

/-- The `StateChangeConf` of `stu3Delete`: pending PURGING, target
SUCCESS, 10 second delay, 3 second minimum timeout. -/
def purgeStateConf : StateChangeConf :=
  { pending := ["PURGING"], target := ["SUCCESS"], delaySeconds := 10, minTimeoutSeconds := 3 }

/-- Terminal outcomes of `WaitForStateContext`. -/
inductive PollOutcome where
  | success
  | refreshError (e : String)
  | unexpectedState (s : String)
  | timedOut
  deriving DecidableEq

/-- The wait loop of `resource.StateChangeConf.WaitForStateContext`
(terraform-plugin-sdk): each tick runs the refresher; a refresh error
aborts; a target label is terminal success; a pending label keeps
waiting; any other label aborts with an unexpected-state error;
exhausted fuel is the wall-clock timeout.  Result: (outcome, number of
checks performed). -/
def runPoller (refresh : Nat → RefreshResult) (pending target : List String) :
    Nat → Nat → PollOutcome × Nat
  | _, 0 => (PollOutcome.timedOut, 0)
  | n, f + 1 =>
    match (refresh n).err with
    | some e => (PollOutcome.refreshError e, 1)
    | none =>
      if target.contains (refresh n).state then (PollOutcome.success, 1)
      else if pending.contains (refresh n).state then
        ((runPoller refresh pending target (n + 1) f).1,
         (runPoller refresh pending target (n + 1) f).2 + 1)
      else (PollOutcome.unexpectedState (refresh n).state, 1)

/-- `WaitForStateContext` with the label sets of a configuration. -/
def waitForState (conf : StateChangeConf) (refresh : Nat → RefreshResult) (fuel : Nat) :
    PollOutcome × Nat :=
  runPoller refresh conf.pending conf.target 0 fuel

/-- The field mutations of `stu3Update`: a changed `name` overwrites
`org.Name.Value`; a changed `part_of` overwrites or clears the `PartOf`
reference. -/
def stu3ApplyChanges (d : CdrResourceData) (org : Stu3Org) : Stu3Org :=
  { org with
    name := if d.nameChanged then d.name else org.name
    partOf :=
      if d.partOfChanged then
        (if d.part_of = "" then none else some d.part_of)
      else org.partOf }

/-- `stu3Update`: fetch the organization by ID, marshal it, mutate the
fields `d.HasChange` reports changed, and when something changed PATCH
the diff of the before/after serializations; a failed fetch, failed
marshal or failed diff surfaces the error; no changed field returns with
no further call. -/
def stu3Update (env : CdrEnv) (d : CdrResourceData) :
    CdrResourceData × List String × List CdrCall :=
  match (env.client.getOrganizationByID d.id).err with
  | some e => (d, [e], [CdrCall.getOrg d.id])
  | none =>
    match (env.client.getOrganizationByID d.id).org with
    | none =>
      -- the Go code would dereference the nil organization here; no claim
      -- exercises this path
      (d, ["panic: nil organization dereference"], [CdrCall.getOrg d.id])
    | some org =>
      match env.marshalErr with
      | some e => (d, [e], [CdrCall.getOrg d.id])
      | none =>
        if d.nameChanged || d.partOfChanged then
          match env.diffErr with
          | some e => (d, [e], [CdrCall.getOrg d.id])
          | none =>
            match env.client.patchOp ("Organization/" ++ d.id)
                (diffBytes (marshalOrg org) (marshalOrg (stu3ApplyChanges d org))) with
            | some e => (d, [e], [CdrCall.getOrg d.id, CdrCall.patch ("Organization/" ++ d.id)])
            | none => (d, [], [CdrCall.getOrg d.id, CdrCall.patch ("Organization/" ++ d.id)])
        else (d, [], [CdrCall.getOrg d.id])

/-- Modelled from the spec: `resourceCDROrgUpdate` (the version
dispatcher in `internal/services/cdr/org/org.go`, not under src/)
delegates the Update of an STU3 organization to the version-specific
implementation, `stu3Update`. -/
def resourceCDROrgUpdate (env : CdrEnv) (d : CdrResourceData) :
    CdrResourceData × List String × List CdrCall :=
  stu3Update env d

/-- The onboarding path of `stu3Create`: drive
`client.TenantSTU3.Onboard` through `backoff.Retry` with
`WithMaxRetries(..., 8)`; a final error surfaces, success sets the ID to
the onboarded organization's ID (the closure leaves `onboardedOrg`
holding the organization of the last attempt made). -/
def stu3CreateOnboard (env : CdrEnv) (d : CdrResourceData) :
    CdrResourceData × List String × List CdrCall :=
  match backoffRetry (fun i => (env.client.onboardAttempt i).check) 8 with
  | (attempts, some e) =>
    (d, [e], CdrCall.getOrg d.org_id :: List.replicate attempts CdrCall.onboard)
  | (attempts, none) =>
    ({ d with id := (env.client.onboardAttempt (attempts - 1)).org.id }, [],
     CdrCall.getOrg d.org_id :: List.replicate attempts CdrCall.onboard)

/-- `stu3Create`: build the new organization (`stu3.NewOrganization` may
fail), then check whether the organization is already onboarded by
reading it by its natural key `org_id`; when that read yields an
organization with no error, set the ID from it and delegate to
`resourceCDROrgUpdate`; otherwise onboard through the retry executor. -/
def stu3Create (env : CdrEnv) (d : CdrResourceData) :
    CdrResourceData × List String × List CdrCall :=
  match env.newOrgErr with
  | some e => (d, [e], [])
  | none =>
    match (env.client.getOrganizationByID d.org_id).err,
        (env.client.getOrganizationByID d.org_id).org with
    | none, some o =>
      ((resourceCDROrgUpdate env { d with id := o.id }).1,
       (resourceCDROrgUpdate env { d with id := o.id }).2.1,
       CdrCall.getOrg d.org_id :: (resourceCDROrgUpdate env { d with id := o.id }).2.2)
    | _, _ => stu3CreateOnboard env d

/-- The field updates `stu3Read` applies on a successful fetch:
`name` always, `part_of` only when the organization has a `PartOf`
reference. -/
def stu3ReadApply (d : CdrResourceData) (o : Stu3Org) : CdrResourceData :=
  match o.partOf with
  | some p => { d with name := o.name, part_of := p }
  | none => { d with name := o.name }

/-- `stu3Read`: a single fetch by `org_id`; on an error with a 404
response the ID is cleared and no diagnostic is reported; any other
error is reported; success copies the fields into the state. -/
def stu3Read (client : CdrClient) (d : CdrResourceData) :
    CdrResourceData × List String × List CdrCall :=
  match (client.getOrganizationByID d.org_id).err with
  | some e =>
    match (client.getOrganizationByID d.org_id).resp with
    | some r =>
      if r.statusCode = 404 then ({ d with id := "" }, [], [CdrCall.getOrg d.org_id])
      else (d, [e], [CdrCall.getOrg d.org_id])
    | none => (d, [e], [CdrCall.getOrg d.org_id])
  | none =>
    match (client.getOrganizationByID d.org_id).org with
    | some o => (stu3ReadApply d o, [], [CdrCall.getOrg d.org_id])
    | none =>
      -- the Go code would dereference the nil organization here; no claim
      -- exercises this path
      (d, ["panic: nil organization dereference"], [CdrCall.getOrg d.org_id])

/-- `path.Join("Organization", id)` as the soft delete builds it. -/
def softDeletePath (d : CdrResourceData) : String :=
  if d.id = "" then "Organization" else "Organization/" ++ d.id

/-- The non-purge branch of `stu3Delete`: one delete call; a 404
response (already gone) clears the ID with no diagnostic, before any
error check; then errors surface; a response reporting not-deleted is an
error; otherwise the ID is cleared. -/
def stu3SoftDelete (client : CdrClient) (d : CdrResourceData) :
    CdrResourceData × List String × List CdrCall :=
  match client.deleteOp (softDeletePath d) with
  | r =>
    if r.resp.map (fun x => x.statusCode) = some 404 then
      ({ d with id := "" }, [], [CdrCall.deleteCall (softDeletePath d)])
    else
      match r.err with
      | some e => (d, [e], [CdrCall.deleteCall (softDeletePath d)])
      | none =>
        if r.deleted = false then
          (match r.resp with
           | some resp =>
             (d, ["delete failed with status code " ++ toString resp.statusCode],
              [CdrCall.deleteCall (softDeletePath d)])
           | none => (d, ["delete failed with nil response"],
              [CdrCall.deleteCall (softDeletePath d)]))
        else ({ d with id := "" }, [], [CdrCall.deleteCall (softDeletePath d)])

/-- The wait of the purge branch once the `$purge` POST was accepted:
drive `WaitForStateContext` with `purgeStateConf` and the refresher
derived from the response's `Location` header; success clears the ID,
any other outcome reports the wait error. -/
def purgeWaitResult (client : CdrClient) (d : CdrResourceData) (location : String)
    (fuel : Nat) : CdrResourceData × List String × List CdrCall :=
  match waitForState purgeStateConf (stu3PurgeRefresh client location d.id) fuel with
  | (outcome, checks) =>
    match outcome with
    | PollOutcome.success =>
      ({ d with id := "" }, [],
       CdrCall.purgePost :: List.replicate checks (CdrCall.statusGet location))
    | _ =>
      (d, ["error waiting for FHIR ORG purge " ++ d.id ++ " operation"],
       CdrCall.purgePost :: List.replicate checks (CdrCall.statusGet location))

/-- The purge branch of `stu3Delete`, applied to the result of the
`$purge` POST: a 404 response (already gone) clears the ID; then errors
surface; a nil response or a status other than 202 is an error; a 202
acceptance starts the purge-status wait. -/
def stu3PurgeBranch (client : CdrClient) (d : CdrResourceData) (fuel : Nat)
    (pr : PurgeResult) : CdrResourceData × List String × List CdrCall :=
  if pr.resp.map (fun x => x.statusCode) = some 404 then
    ({ d with id := "" }, [], [CdrCall.purgePost])
  else
    match pr.err with
    | some e => (d, [e], [CdrCall.purgePost])
    | none =>
      match pr.resp with
      | none => (d, ["unexpected nil response for $purge operation"], [CdrCall.purgePost])
      | some resp =>
        if resp.statusCode = 202 then purgeWaitResult client d resp.location fuel
        else
          (d, ["$purge operation returned unexpected statusCode " ++ toString resp.statusCode],
           [CdrCall.purgePost])

/-- `stu3Delete`: soft delete unless `purge_delete` is set, else the
purge POST followed by the purge-status wait.  `fuel` models the
wall-clock timeout of the wait as a bound on the number of poll
checks. -/
def stu3Delete (client : CdrClient) (d : CdrResourceData) (fuel : Nat) :
    CdrResourceData × List String × List CdrCall :=
  if d.purge_delete = false then stu3SoftDelete client d
  else stu3PurgeBranch client d fuel client.purgePost

/-! ## IAM organization resource (`resource_iam_organization.go`) -/

/-- An `iam.Organization` as the embedded code reads and writes it. -/
structure IamOrg where
  id : String
  name : String
  description : String
  parent : String
  externalID : String
  displayName : String
  orgType : String
  active : Bool
  deriving DecidableEq

/-- An `iam.Response` as the embedded code reads it. -/
structure IamResponse where
  statusCode : Nat
  deriving DecidableEq

/-- One result of `client.Organizations.GetOrganizationByID`. -/
structure IamGetResult where
  org : Option IamOrg
  resp : Option IamResponse
  err : Option String

/-- One result of `client.Organizations.DeleteOrganization`. -/
structure IamDeleteResult where
  ok : Bool
  resp : Option IamResponse
  err : Option String

/-- One remote call of the IAM organization resource, for call traces. -/
inductive IamCall where
  | getOrg (id : String)
  | updateOrg
  | deleteOrg
  deriving DecidableEq

/-- The IAM client: each remote operation as a pure function (only the
error of `UpdateOrganization` is observed by the code). -/
structure IamClient where
  getOrganizationByID : String → IamGetResult
  updateOrganization : IamOrg → Option String
  deleteOrganization : IamOrg → IamDeleteResult

/-- The environment of the IAM callbacks: the outcome of `c.IAMClient()`
and the client. -/
structure IamEnv where
  clientErr : Option String
  client : IamClient

/-- The IAM organization resource data: terraform ID, declared fields,
and the `d.HasChange` verdicts terraform supplies to Update. -/
structure IamResourceData where
  id : String
  name : String
  description : String
  displayName : String
  orgType : String
  externalID : String
  parentOrgID : String
  active : Bool
  nameChanged : Bool
  descriptionChanged : Bool
  typeChanged : Bool
  externalIDChanged : Bool
  displayNameChanged : Bool
  deriving DecidableEq

/-- `resourceIAMOrgRead`: one fetch by ID; an error with a 404 response
clears the ID and reports nothing; any other error is reported; success
copies the remote fields into the state. -/
def resourceIAMOrgRead (env : IamEnv) (d : IamResourceData) :
    IamResourceData × List String × List IamCall :=
  match env.clientErr with
  | some e => (d, [e], [])
  | none =>
    match (env.client.getOrganizationByID d.id).err with
    | some e =>
      match (env.client.getOrganizationByID d.id).resp with
      | some r =>
        if r.statusCode = 404 then ({ d with id := "" }, [], [IamCall.getOrg d.id])
        else (d, [e], [IamCall.getOrg d.id])
      | none => (d, [e], [IamCall.getOrg d.id])
    | none =>
      match (env.client.getOrganizationByID d.id).org with
      | some o =>
        ({ d with
            description := o.description
            name := o.name
            externalID := o.externalID
            parentOrgID := o.parent
            displayName := o.displayName
            active := o.active
            orgType := o.orgType },
         [], [IamCall.getOrg d.id])
      | none =>
        -- the Go code would dereference the nil organization here; no claim
        -- exercises this path
        (d, ["panic: nil organization dereference"], [IamCall.getOrg d.id])

/-- The field overwrites of `resourceIAMOrgUpdate` when some declared
field changed. -/
def iamApplyChanges (d : IamResourceData) (org : IamOrg) : IamOrg :=
  { org with
    name := d.name
    description := d.description
    orgType := d.orgType
    externalID := d.externalID
    displayName := d.displayName }

/-- `resourceIAMOrgUpdate`: fetch the organization by ID; when any of
description, name, type, external_id or display_name changed, overwrite
those fields and submit one `UpdateOrganization` call (its error is
appended to the diagnostics); otherwise return with no further call. -/
def resourceIAMOrgUpdate (env : IamEnv) (d : IamResourceData) :
    IamResourceData × List String × List IamCall :=
  match env.clientErr with
  | some e => (d, [e], [])
  | none =>
    match (env.client.getOrganizationByID d.id).err with
    | some e => (d, [e], [IamCall.getOrg d.id])
    | none =>
      match (env.client.getOrganizationByID d.id).org with
      | none =>
        -- the Go code would dereference the nil organization here; no claim
        -- exercises this path
        (d, ["panic: nil organization dereference"], [IamCall.getOrg d.id])
      | some org =>
        if d.descriptionChanged || d.nameChanged || d.typeChanged ||
            d.externalIDChanged || d.displayNameChanged then
          match env.client.updateOrganization (iamApplyChanges d org) with
          | some e => (d, [e], [IamCall.getOrg d.id, IamCall.updateOrg])
          | none => (d, [], [IamCall.getOrg d.id, IamCall.updateOrg])
        else (d, [], [IamCall.getOrg d.id])

/-- `resourceIAMOrgDelete`: fetch the organization by ID (an error here,
including a 404, surfaces as an error); then one `DeleteOrganization`
call whose error surfaces; a false `ok` is `config.ErrInvalidResponse`;
success reports nothing and leaves the ID in place (no `SetId` call in
the source). -/
def resourceIAMOrgDelete (env : IamEnv) (d : IamResourceData) :
    IamResourceData × List String × List IamCall :=
  match env.clientErr with
  | some e => (d, [e], [])
  | none =>
    match (env.client.getOrganizationByID d.id).err with
    | some e => (d, [e], [IamCall.getOrg d.id])
    | none =>
      match (env.client.getOrganizationByID d.id).org with
      | none =>
        -- the Go code would dereference the nil organization here; no claim
        -- exercises this path
        (d, ["panic: nil organization dereference"], [IamCall.getOrg d.id])
      | some org =>
        match (env.client.deleteOrganization org).err with
        | some e => (d, [e], [IamCall.getOrg d.id, IamCall.deleteOrg])
        | none =>
          if (env.client.deleteOrganization org).ok = false then
            (d, ["ErrInvalidResponse"], [IamCall.getOrg d.id, IamCall.deleteOrg])
          else (d, [], [IamCall.getOrg d.id, IamCall.deleteOrg])

/-! ## Concrete environments for witnesses and counterexamples -/

/-- A CDR organization already onboarded remotely. -/
def c2Org : Stu3Org := { id := "org-cdr-2", name := "Research Org", partOf := none }

/-- A CDR client whose read-by-natural-key finds `c2Org`. -/
def c2Client : CdrClient :=
  { getOrganizationByID := fun _ =>
      { org := some c2Org, resp := some { statusCode := 200, location := "" }, err := none }
    onboardAttempt := fun _ => { org := c2Org, check := RetryClass.success }
    patchOp := fun _ _ => none
    deleteOp := fun _ =>
      { deleted := true, resp := some { statusCode := 200, location := "" }, err := none }
    purgePost := { resp := some { statusCode := 202, location := "" }, err := none }
    statusGet := fun _ _ =>
      { params := [("status", "SUCCESS")]
        resp := { statusCode := 200, location := "" }
        err := none } }

/-- The environment around `c2Client`, every external helper succeeding. -/
def c2Env : CdrEnv :=
  { newOrgErr := none, marshalErr := none, diffErr := none, client := c2Client }

/-- A desired CDR organization whose natural key is `c2Org`'s. -/
def c2D : CdrResourceData :=
  { id := ""
    org_id := "org-cdr-2"
    name := "Research Org"
    part_of := ""
    purge_delete := false
    nameChanged := false
    partOfChanged := false }

/-- A CDR organization for the no-op-update scenario. -/
def c3Org : Stu3Org := { id := "cdr-id-3", name := "Dept", partOf := none }

/-- A CDR client whose fetch succeeds with `c3Org`. -/
def c3Client : CdrClient :=
  { getOrganizationByID := fun _ =>
      { org := some c3Org, resp := some { statusCode := 200, location := "" }, err := none }
    onboardAttempt := fun _ => { org := c3Org, check := RetryClass.success }
    patchOp := fun _ _ => none
    deleteOp := fun _ =>
      { deleted := true, resp := some { statusCode := 200, location := "" }, err := none }
    purgePost := { resp := some { statusCode := 202, location := "" }, err := none }
    statusGet := fun _ _ =>
      { params := [("status", "SUCCESS")]
        resp := { statusCode := 200, location := "" }
        err := none } }

/-- The environment around `c3Client`. -/
def c3Env : CdrEnv :=
  { newOrgErr := none, marshalErr := none, diffErr := none, client := c3Client }

/-- A CDR update input with no changed field. -/
def c3D : CdrResourceData :=
  { id := "cdr-id-3"
    org_id := "cdr-id-3"
    name := "Dept"
    part_of := ""
    purge_delete := false
    nameChanged := false
    partOfChanged := false }

/-- An IAM organization for the no-op-update scenario. -/
def c3IamOrg : IamOrg :=
  { id := "org-iam-3"
    name := "dept"
    description := ""
    parent := ""
    externalID := ""
    displayName := ""
    orgType := ""
    active := true }

/-- An IAM client whose fetch succeeds with `c3IamOrg`. -/
def c3IamClient : IamClient :=
  { getOrganizationByID := fun _ =>
      { org := some c3IamOrg, resp := some { statusCode := 200 }, err := none }
    updateOrganization := fun _ => none
    deleteOrganization := fun _ =>
      { ok := true, resp := some { statusCode := 200 }, err := none } }

/-- The environment around `c3IamClient`. -/
def c3IamEnv : IamEnv := { clientErr := none, client := c3IamClient }

/-- An IAM update input with no changed field. -/
def c3IamD : IamResourceData :=
  { id := "org-iam-3"
    name := "dept"
    description := ""
    displayName := ""
    orgType := ""
    externalID := ""
    parentOrgID := ""
    active := true
    nameChanged := false
    descriptionChanged := false
    typeChanged := false
    externalIDChanged := false
    displayNameChanged := false }

/-- A CDR client whose fetch answers 404 with an error. -/
def c5Client : CdrClient :=
  { getOrganizationByID := fun _ =>
      { org := none
        resp := some { statusCode := 404, location := "" }
        err := some ("EntityNotFoundError") }
    onboardAttempt := fun _ => { org := c2Org, check := RetryClass.success }
    patchOp := fun _ _ => none
    deleteOp := fun _ =>
      { deleted := true, resp := some { statusCode := 200, location := "" }, err := none }
    purgePost := { resp := some { statusCode := 202, location := "" }, err := none }
    statusGet := fun _ _ =>
      { params := [("status", "SUCCESS")]
        resp := { statusCode := 200, location := "" }
        err := none } }

/-- A CDR read input whose remote organization is gone. -/
def c5D : CdrResourceData :=
  { id := "org-cdr-5"
    org_id := "org-cdr-5"
    name := "Gone"
    part_of := ""
    purge_delete := false
    nameChanged := false
    partOfChanged := false }

/-- An IAM client whose fetch answers 404 with an error. -/
def c5IamClient : IamClient :=
  { getOrganizationByID := fun _ =>
      { org := none, resp := some { statusCode := 404 }, err := some ("iam: not found") }
    updateOrganization := fun _ => none
    deleteOrganization := fun _ =>
      { ok := true, resp := some { statusCode := 200 }, err := none } }

/-- The environment around `c5IamClient`. -/
def c5IamEnv : IamEnv := { clientErr := none, client := c5IamClient }

/-- An IAM read input whose remote organization is gone. -/
def c5IamD : IamResourceData :=
  { id := "org-iam-5"
    name := "gone"
    description := ""
    displayName := ""
    orgType := ""
    externalID := ""
    parentOrgID := ""
    active := true
    nameChanged := false
    descriptionChanged := false
    typeChanged := false
    externalIDChanged := false
    displayNameChanged := false }

/-- A CDR client whose delete call answers 404. -/
def c6Client : CdrClient :=
  { getOrganizationByID := fun _ =>
      { org := some c2Org, resp := some { statusCode := 200, location := "" }, err := none }
    onboardAttempt := fun _ => { org := c2Org, check := RetryClass.success }
    patchOp := fun _ _ => none
    deleteOp := fun _ =>
      { deleted := false
        resp := some { statusCode := 404, location := "" }
        err := some ("cdr: not found") }
    purgePost := { resp := some { statusCode := 202, location := "" }, err := none }
    statusGet := fun _ _ =>
      { params := [("status", "SUCCESS")]
        resp := { statusCode := 200, location := "" }
        err := none } }

/-- A CDR soft-delete input for the already-gone scenario. -/
def c6D : CdrResourceData :=
  { id := "org-cdr-6"
    org_id := "org-cdr-6"
    name := "Gone"
    part_of := ""
    purge_delete := false
    nameChanged := false
    partOfChanged := false }

/-- The IAM organization the delete-already-gone scenario fetches. -/
def c6IamOrg : IamOrg :=
  { id := "org-iam-6"
    name := "gone"
    description := ""
    parent := ""
    externalID := ""
    displayName := ""
    orgType := ""
    active := true }

/-- An IAM client whose fetch succeeds but whose delete answers 404 with
an error. -/
def c6IamClient : IamClient :=
  { getOrganizationByID := fun _ =>
      { org := some c6IamOrg, resp := some { statusCode := 200 }, err := none }
    updateOrganization := fun _ => none
    deleteOrganization := fun _ =>
      { ok := false
        resp := some { statusCode := 404 }
        err := some ("iam: organization not found") } }

/-- The environment around `c6IamClient`. -/
def c6IamEnv : IamEnv := { clientErr := none, client := c6IamClient }

/-- An IAM delete input for the already-gone scenario. -/
def c6IamD : IamResourceData :=
  { id := "org-iam-6"
    name := "gone"
    description := ""
    displayName := ""
    orgType := ""
    externalID := ""
    parentOrgID := ""
    active := true
    nameChanged := false
    descriptionChanged := false
    typeChanged := false
    externalIDChanged := false
    displayNameChanged := false }

/-- A CDR client whose purge POST is accepted (202) and whose status
checks answer in-progress once, then SUCCESS. -/
def c7Client : CdrClient :=
  { getOrganizationByID := fun _ =>
      { org := some c2Org, resp := some { statusCode := 200, location := "" }, err := none }
    onboardAttempt := fun _ => { org := c2Org, check := RetryClass.success }
    patchOp := fun _ _ => none
    deleteOp := fun _ =>
      { deleted := true, resp := some { statusCode := 200, location := "" }, err := none }
    purgePost :=
      { resp := some
          { statusCode := 202
            location := "https://cdr.example.com/purge/status/42" }
        err := none }
    statusGet := fun _ n =>
      if n = 0 then
        { params := [], resp := { statusCode := 202, location := "" }, err := none }
      else
        { params := [("status", "SUCCESS")]
          resp := { statusCode := 200, location := "" }
          err := none } }

/-- A CDR purge-delete input. -/
def c7D : CdrResourceData :=
  { id := "org-cdr-7"
    org_id := "org-cdr-7"
    name := "Purged"
    part_of := ""
    purge_delete := true
    nameChanged := false
    partOfChanged := false }


/-! ## Helper lemmas -/

/-- Under an operation that fails retryably on every attempt, the retry
loop spends its whole budget: starting at attempt `i` with `f` retries
left it makes `f + 1` further attempts and returns the last error. -/
theorem backoffRetryAux_allRetryable (op : Nat → RetryClass) (e : String)
    (h : ∀ i, op i = RetryClass.retryable e) :
    ∀ f i, backoffRetryAux op i f = (i + f + 1, some e) := by
  intro f
  induction f with
  | zero =>
    intro i
    simp [backoffRetryAux, h i]
  | succ f ih =>
    intro i
    have harith : i + 1 + f + 1 = i + (f + 1) + 1 := by omega
    simp [backoffRetryAux, h i, ih (i + 1), harith]

/-- `stu3Update` never issues an onboarding call. -/
theorem stu3Update_no_onboard (env : CdrEnv) (d : CdrResourceData) :
    CdrCall.onboard ∉ (stu3Update env d).2.2 := by
  unfold stu3Update
  repeat' split
  all_goals simp

/-- `stu3Update` never changes the terraform ID. -/
theorem stu3Update_keeps_id (env : CdrEnv) (d : CdrResourceData) :
    (stu3Update env d).1.id = d.id := by
  unfold stu3Update
  repeat' split
  all_goals simp

/-! ## Claim theorems -/

/-- C1, counterexample: the claim says every status code at or above 500
is classified Transient, never Permanent; at status code 500 (which is
at least 500) `checkForIntermittentErrors` returns a
`backoff.Permanent` error. -/
theorem classifier_at_500_permanent_cex :
    500 ≤ 500 ∧
    (checkForIntermittentErrors
        (some { statusCode := 500, errorMessage := "database exploded" })
        (some ("boom"))).isPermanent = true :=
  ⟨Nat.le.refl, rfl⟩

/-- C1, amended: for a status code strictly above 500 the classifier
returns the call's error unwrapped — retry-eligible, so the retry
executor retries it; for status code exactly 500 it returns a Permanent
error, which is never retried. -/
theorem classifier_5xx_split (r : ConsoleResponse) (e : String) :
    (500 < r.statusCode →
      checkForIntermittentErrors (some r) (some e) = RetryClass.retryable e) ∧
    (r.statusCode = 500 →
      checkForIntermittentErrors (some r) (some e)
        = RetryClass.permanent (consoleErrorMessage r (some e))) := by
  constructor
  · intro h
    simp [checkForIntermittentErrors, if_pos h, plainErr]
  · intro h
    simp [checkForIntermittentErrors, h]

/-- C8, counterexample: the claim says a nil response with an error is
classified Permanent (the classifier has no idempotent-retry flag); the
classifier in fact returns the error unwrapped, which `backoff.Retry`
retries. -/
theorem classifier_nil_response_cex :
    (checkForIntermittentErrors none (some ("dial tcp: connection refused"))).isPermanent
        = false ∧
    checkForIntermittentErrors none (some ("dial tcp: connection refused"))
        = RetryClass.retryable ("dial tcp: connection refused") :=
  ⟨rfl, rfl⟩

/-- C8, amended: for a nil response with an error,
`checkForIntermittentErrors` returns the error unwrapped — a plain
retry-eligible error, never Permanent (the function takes no
idempotent-retry flag; every call site gets this behavior). -/
theorem classifier_nil_response_retryable (e : String) :
    checkForIntermittentErrors none (some e) = RetryClass.retryable e := rfl

/-- C9: a status-400 result whose error message contains the transient
signature "invalid character" is classified as the retryable
`config.ErrIntermittent`, so the retry executor retries it. -/
theorem classifier_invalid_character_intermittent (r : ConsoleResponse) (err : Option String)
    (h4 : r.statusCode = 400)
    (hc : strContains r.errorMessage ("invalid character") = true) :
    checkForIntermittentErrors (some r) err = RetryClass.retryable errIntermittent := by
  simp [checkForIntermittentErrors, h4, hc]

/-- C9, witness: the theorem at a concrete 400 response carrying the
signature. -/
theorem classifier_invalid_character_intermittent_witness :
    checkForIntermittentErrors
        (some { statusCode := 400, errorMessage := "json: invalid character at offset 3" })
        (some ("bad request"))
      = RetryClass.retryable errIntermittent :=
  classifier_invalid_character_intermittent
    { statusCode := 400, errorMessage := "json: invalid character at offset 3" }
    (some ("bad request")) rfl (by decide)

/-- C4, counterexample: the claim says maxRetries = N makes exactly N
attempts; with maxRetries = 1 the executor driving an operation that
always answers 503 (classified retryable) makes 2 attempts, not 1. -/
theorem retry_attempts_cex :
    (backoffRetry (fun _ => checkForIntermittentErrors
        (some { statusCode := 503, errorMessage := "service unavailable" })
        (some ("backend down"))) 1).1 = 2 ∧ (2 : Nat) ≠ 1 :=
  ⟨rfl, by decide⟩

/-- C4, amended: against an operation that always answers 503 with an
error (always classified retryable by `checkForIntermittentErrors`), the
retry executor with maxRetries = N makes exactly N + 1 attempts — the
initial attempt plus N retries — before returning the final failure; in
particular `updateWithRetry` (maxRetries = 30) makes 31 attempts. -/
theorem retry_maxRetries_attempts (N : Nat) (m e : String) :
    backoffRetry (fun _ => checkForIntermittentErrors
        (some { statusCode := 503, errorMessage := m }) (some e)) N = (N + 1, some e) ∧
    (∀ (env : MetricsEnv) (app : ConsoleApplication),
      (∀ i, env.updateApplicationAutoscaler i app
          = { app := none, resp := some { statusCode := 503, errorMessage := m },
              err := some e }) →
      updateWithRetry env app = (none, some e, 31)) := by
  constructor
  · have h := backoffRetryAux_allRetryable
      (fun _ => checkForIntermittentErrors
        (some { statusCode := 503, errorMessage := m }) (some e)) e (fun _ => rfl) N 0
    simpa [backoffRetry] using h
  · intro env app h
    have hop : ∀ i, checkForIntermittentErrors
        (env.updateApplicationAutoscaler i app).resp
        (env.updateApplicationAutoscaler i app).err = RetryClass.retryable e := by
      intro i
      rw [h i]
      rfl
    have hr := backoffRetryAux_allRetryable
      (fun i => checkForIntermittentErrors
        (env.updateApplicationAutoscaler i app).resp
        (env.updateApplicationAutoscaler i app).err) e hop 30 0
    simp [updateWithRetry, backoffRetry, hr, h 30]

/-- C10: the autoscaler Update callback is extensionally the Create
callback — in the source it is the single line
`return resourceMetricsAutoscalerCreate(ctx, d, m)` — so on every input
it yields the same state, diagnostics and remote attempts. -/
theorem metrics_update_eq_create (env : MetricsEnv) (d : MetricsResourceData) :
    resourceMetricsAutoscalerUpdate env d = resourceMetricsAutoscalerCreate env d := rfl

/-- C2: when the initial read by natural key finds an organization `o`
with no error, `stu3Create` sets the identifier to `o`'s ID and
delegates to Update — its whole result is the delegated Update's result
(plus the one read in the trace) and it issues zero onboarding calls. -/
theorem stu3Create_existing_delegates_to_update (env : CdrEnv) (d : CdrResourceData)
    (o : Stu3Org)
    (hn : env.newOrgErr = none)
    (ho : (env.client.getOrganizationByID d.org_id).org = some o)
    (he : (env.client.getOrganizationByID d.org_id).err = none) :
    stu3Create env d =
      ((resourceCDROrgUpdate env { d with id := o.id }).1,
       (resourceCDROrgUpdate env { d with id := o.id }).2.1,
       CdrCall.getOrg d.org_id :: (resourceCDROrgUpdate env { d with id := o.id }).2.2) ∧
    (stu3Create env d).1.id = o.id ∧
    CdrCall.onboard ∉ (stu3Create env d).2.2 := by
  have h1 : stu3Create env d =
      ((resourceCDROrgUpdate env { d with id := o.id }).1,
       (resourceCDROrgUpdate env { d with id := o.id }).2.1,
       CdrCall.getOrg d.org_id :: (resourceCDROrgUpdate env { d with id := o.id }).2.2) := by
    simp [stu3Create, hn, ho, he]
  refine ⟨h1, ?_, ?_⟩
  · rw [h1]
    exact stu3Update_keeps_id env { d with id := o.id }
  · rw [h1]
    intro hmem
    rcases List.mem_cons.mp hmem with hc | hc
    · cases hc
    · exact stu3Update_no_onboard env { d with id := o.id } hc

/-- C2, witness: the theorem at a concrete client that already knows the
organization. -/
theorem stu3Create_existing_delegates_to_update_witness :
    stu3Create c2Env c2D =
      ((resourceCDROrgUpdate c2Env { c2D with id := c2Org.id }).1,
       (resourceCDROrgUpdate c2Env { c2D with id := c2Org.id }).2.1,
       CdrCall.getOrg c2D.org_id ::
         (resourceCDROrgUpdate c2Env { c2D with id := c2Org.id }).2.2) ∧
    (stu3Create c2Env c2D).1.id = c2Org.id ∧
    CdrCall.onboard ∉ (stu3Create c2Env c2D).2.2 :=
  stu3Create_existing_delegates_to_update c2Env c2D c2Org rfl rfl rfl

/-- C3, counterexample: the claim says a no-op Update performs zero
remote calls; at a concrete no-change input the Update still performs
one remote call, the fetch of the current remote state. -/
theorem noop_update_issues_a_call_cex :
    c3D.nameChanged = false ∧ c3D.partOfChanged = false ∧
    (stu3Update c3Env c3D).2.2 = [CdrCall.getOrg ("cdr-id-3")] ∧
    [CdrCall.getOrg ("cdr-id-3")] ≠ ([] : List CdrCall) :=
  ⟨rfl, rfl, rfl, by decide⟩

/-- C3, amended: an Update invocation in which no declared field changed
issues zero patch or update calls, but it does perform exactly one
remote call — the initial fetch of the current remote state — in both
the CDR and the IAM implementation. -/
theorem noop_update_single_fetch (env : CdrEnv) (d : CdrResourceData)
    (ienv : IamEnv) (di : IamResourceData)
    (h1 : d.nameChanged = false) (h2 : d.partOfChanged = false)
    (h3 : ienv.clientErr = none)
    (h4 : di.nameChanged = false) (h5 : di.descriptionChanged = false)
    (h6 : di.typeChanged = false) (h7 : di.externalIDChanged = false)
    (h8 : di.displayNameChanged = false) :
    (stu3Update env d).2.2 = [CdrCall.getOrg d.id] ∧
    (resourceIAMOrgUpdate ienv di).2.2 = [IamCall.getOrg di.id] := by
  constructor
  · unfold stu3Update
    repeat' split
    all_goals simp_all
  · unfold resourceIAMOrgUpdate
    repeat' split
    all_goals simp_all

/-- C3, witness: the amended theorem at concrete no-change inputs. -/
theorem noop_update_single_fetch_witness :
    (stu3Update c3Env c3D).2.2 = [CdrCall.getOrg c3D.id] ∧
    (resourceIAMOrgUpdate c3IamEnv c3IamD).2.2 = [IamCall.getOrg c3IamD.id] :=
  noop_update_single_fetch c3Env c3D c3IamEnv c3IamD rfl rfl rfl rfl rfl rfl rfl rfl

/-- C5: a Read whose fetch returns an error with a 404 response clears
the identifier and reports no diagnostic, in both the CDR and the IAM
implementation. -/
theorem read_notfound_clears_identifier (client : CdrClient) (d : CdrResourceData)
    (e : String) (r : FhirResponse)
    (ienv : IamEnv) (di : IamResourceData) (e2 : String) (r2 : IamResponse)
    (h1 : (client.getOrganizationByID d.org_id).err = some e)
    (h2 : (client.getOrganizationByID d.org_id).resp = some r)
    (h3 : r.statusCode = 404)
    (h4 : ienv.clientErr = none)
    (h5 : (ienv.client.getOrganizationByID di.id).err = some e2)
    (h6 : (ienv.client.getOrganizationByID di.id).resp = some r2)
    (h7 : r2.statusCode = 404) :
    stu3Read client d = ({ d with id := "" }, [], [CdrCall.getOrg d.org_id]) ∧
    resourceIAMOrgRead ienv di = ({ di with id := "" }, [], [IamCall.getOrg di.id]) := by
  constructor
  · simp [stu3Read, h1, h2, h3]
  · simp [resourceIAMOrgRead, h4, h5, h6, h7]

/-- C5, witness: the theorem at concrete clients answering 404. -/
theorem read_notfound_clears_identifier_witness :
    stu3Read c5Client c5D = ({ c5D with id := "" }, [], [CdrCall.getOrg c5D.org_id]) ∧
    resourceIAMOrgRead c5IamEnv c5IamD
      = ({ c5IamD with id := "" }, [], [IamCall.getOrg c5IamD.id]) :=
  read_notfound_clears_identifier c5Client c5D ("EntityNotFoundError")
    { statusCode := 404, location := "" }
    c5IamEnv c5IamD ("iam: not found") { statusCode := 404 }
    rfl rfl rfl rfl rfl rfl rfl

/-- C6, counterexample: the claim says every soft delete whose delete
call returns 404 completes as success with the identifier cleared; the
IAM organization delete instead reports the 404 error as a diagnostic
and leaves the identifier in place. -/
theorem iam_delete_404_errors_cex :
    (c6IamEnv.client.deleteOrganization c6IamOrg).resp = some { statusCode := 404 } ∧
    (resourceIAMOrgDelete c6IamEnv c6IamD).2.1 = [("iam: organization not found")] ∧
    (resourceIAMOrgDelete c6IamEnv c6IamD).1.id = ("org-iam-6") :=
  ⟨rfl, rfl, rfl⟩

/-- C6, amended: the CDR soft delete treats a 404 delete response as
already-gone — success with the identifier cleared; the IAM organization
delete does not: a 404 (with its error) from the delete call surfaces as
an error diagnostic and the identifier is left unchanged. -/
theorem soft_delete_404_split (client : CdrClient) (d : CdrResourceData) (fuel : Nat)
    (r : FhirResponse)
    (ienv : IamEnv) (di : IamResourceData) (o : IamOrg) (e : String) (r2 : IamResponse)
    (h1 : d.purge_delete = false)
    (h2 : (client.deleteOp (softDeletePath d)).resp = some r)
    (h3 : r.statusCode = 404)
    (h4 : ienv.clientErr = none)
    (h5 : (ienv.client.getOrganizationByID di.id).err = none)
    (h6 : (ienv.client.getOrganizationByID di.id).org = some o)
    (h7 : (ienv.client.deleteOrganization o).err = some e)
    (_h8 : (ienv.client.deleteOrganization o).resp = some r2)
    (_h9 : r2.statusCode = 404) :
    stu3Delete client d fuel
      = ({ d with id := "" }, [], [CdrCall.deleteCall (softDeletePath d)]) ∧
    resourceIAMOrgDelete ienv di
      = (di, [e], [IamCall.getOrg di.id, IamCall.deleteOrg]) := by
  constructor
  · simp [stu3Delete, h1, stu3SoftDelete, h2, h3]
  · simp [resourceIAMOrgDelete, h4, h5, h6, h7]

/-- C6, witness: the amended theorem at concrete clients answering 404
to the delete call. -/
theorem soft_delete_404_split_witness :
    stu3Delete c6Client c6D 1
      = ({ c6D with id := "" }, [], [CdrCall.deleteCall (softDeletePath c6D)]) ∧
    resourceIAMOrgDelete c6IamEnv c6IamD
      = (c6IamD, [("iam: organization not found")],
         [IamCall.getOrg c6IamD.id, IamCall.deleteOrg]) :=
  soft_delete_404_split c6Client c6D 1 { statusCode := 404, location := "" }
    c6IamEnv c6IamD c6IamOrg ("iam: organization not found") { statusCode := 404 }
    rfl rfl rfl rfl rfl rfl rfl rfl rfl

/-- C7: when a purge delete's `$purge` POST is accepted with status 202,
`stu3Delete` drives the wait with `purgeStateConf` — pending exactly
PURGING, target exactly SUCCESS, 10 second initial delay, 3 second
minimum poll interval — against the refresher derived from the
response's follow-up `Location`; each status check answering 202 yields
the pending label PURGING, otherwise the label is the `status` parameter
of the body; a missing `status` parameter is a failing check, and a
label outside both sets aborts the wait as an unexpected state. -/
theorem purge_poll_configuration (client : CdrClient) (d : CdrResourceData) (fuel : Nat)
    (resp : FhirResponse)
    (hp : d.purge_delete = true)
    (hpost : client.purgePost = { resp := some resp, err := none })
    (hcode : resp.statusCode = 202) :
    stu3Delete client d fuel = purgeWaitResult client d resp.location fuel ∧
    purgeStateConf.pending = [("PURGING")] ∧
    purgeStateConf.target = [("SUCCESS")] ∧
    purgeStateConf.delaySeconds = 10 ∧
    purgeStateConf.minTimeoutSeconds = 3 ∧
    (∀ u i e, urlParse u = some u → (client.statusGet u i).err = some e →
      stu3PurgeRefresh client u d.id i = { state := ("FAILED"), err := some e }) ∧
    (∀ u i, urlParse u = some u → (client.statusGet u i).err = none →
      (client.statusGet u i).resp.statusCode = 202 →
      stu3PurgeRefresh client u d.id i = { state := ("PURGING"), err := none }) ∧
    (∀ u i v, urlParse u = some u → (client.statusGet u i).err = none →
      (client.statusGet u i).resp.statusCode ≠ 202 →
      lookupParam ("status") (client.statusGet u i).params = some v →
      stu3PurgeRefresh client u d.id i = { state := v, err := none }) ∧
    (∀ u i, urlParse u = some u → (client.statusGet u i).err = none →
      (client.statusGet u i).resp.statusCode ≠ 202 →
      lookupParam ("status") (client.statusGet u i).params = none →
      stu3PurgeRefresh client u d.id i
        = { state := ("FAILED")
            err := some ("missing status parameter for GET " ++ u) }) ∧
    (∀ (refresh : Nat → RefreshResult) (n f : Nat),
      (refresh n).err = none →
      purgeStateConf.pending.contains (refresh n).state = false →
      purgeStateConf.target.contains (refresh n).state = false →
      (runPoller refresh purgeStateConf.pending purgeStateConf.target n (f + 1)).1
        = PollOutcome.unexpectedState (refresh n).state) := by
  refine ⟨?_, rfl, rfl, rfl, rfl, ?_, ?_, ?_, ?_, ?_⟩
  · simp [stu3Delete, hp, stu3PurgeBranch, hpost, hcode]
  · intro u i e hu he
    simp [stu3PurgeRefresh, hu, he]
  · intro u i hu he hc
    simp [stu3PurgeRefresh, hu, he, hc]
  · intro u i v hu he hc hl
    simp [stu3PurgeRefresh, hu, he, hc, hl]
  · intro u i hu he hc hl
    simp [stu3PurgeRefresh, hu, he, hc, hl]
  · intro refresh n f he hpend htarg
    have hpend2 : (refresh n).state ∉ purgeStateConf.pending := by simpa using hpend
    have htarg2 : (refresh n).state ∉ purgeStateConf.target := by simpa using htarg
    simp [runPoller, he, hpend2, htarg2]

/-- C7, witness: the theorem at a concrete accepted purge whose checks
answer in-progress once, then SUCCESS. -/
theorem purge_poll_configuration_witness :
    stu3Delete c7Client c7D 5
      = purgeWaitResult c7Client c7D ("https://cdr.example.com/purge/status/42") 5 ∧
    purgeStateConf.pending = [("PURGING")] ∧
    purgeStateConf.target = [("SUCCESS")] ∧
    purgeStateConf.delaySeconds = 10 ∧
    purgeStateConf.minTimeoutSeconds = 3 ∧
    (∀ u i e, urlParse u = some u → (c7Client.statusGet u i).err = some e →
      stu3PurgeRefresh c7Client u c7D.id i = { state := ("FAILED"), err := some e }) ∧
    (∀ u i, urlParse u = some u → (c7Client.statusGet u i).err = none →
      (c7Client.statusGet u i).resp.statusCode = 202 →
      stu3PurgeRefresh c7Client u c7D.id i = { state := ("PURGING"), err := none }) ∧
    (∀ u i v, urlParse u = some u → (c7Client.statusGet u i).err = none →
      (c7Client.statusGet u i).resp.statusCode ≠ 202 →
      lookupParam ("status") (c7Client.statusGet u i).params = some v →
      stu3PurgeRefresh c7Client u c7D.id i = { state := v, err := none }) ∧
    (∀ u i, urlParse u = some u → (c7Client.statusGet u i).err = none →
      (c7Client.statusGet u i).resp.statusCode ≠ 202 →
      lookupParam ("status") (c7Client.statusGet u i).params = none →
      stu3PurgeRefresh c7Client u c7D.id i
        = { state := ("FAILED")
            err := some ("missing status parameter for GET " ++ u) }) ∧
    (∀ (refresh : Nat → RefreshResult) (n f : Nat),
      (refresh n).err = none →
      purgeStateConf.pending.contains (refresh n).state = false →
      purgeStateConf.target.contains (refresh n).state = false →
      (runPoller refresh purgeStateConf.pending purgeStateConf.target n (f + 1)).1
        = PollOutcome.unexpectedState (refresh n).state) :=
  purge_poll_configuration c7Client c7D 5
    { statusCode := 202, location := "https://cdr.example.com/purge/status/42" }
    rfl rfl rfl
